import Mathlib

/-!
# DMA-driven PWM example (`main.c`): shallow embedding and verified properties

The C translation unit consists of a handful of preprocessor constants, two
global variables (`duty_cycles`, `shadow_transfer_enable`), three statically
initialised DMA configuration objects (`dma_ll`, `dma_ch0_config`,
`dma_ch1_config`) and the function `main`.

Embedding conventions
* `int` values are mathematical integers pushed through `wrap_int` (two's
  complement, 32 bit) after every arithmetic operation; `uint32_t` values are
  naturals, and storing an `int` into a `uint32_t` goes through `to_uint32`
  (reduction modulo 2^32).
* Global memory is an explicit record `Mem`; the run of `main` threads a
  `State` consisting of the memory and the list of observable events (stores
  to the globals and calls of the hardware abstraction layer), oldest first.
* Constants that come from headers outside this translation unit are fields
  of `Platform`.
-/

namespace DmaPwm

/-! ## Preprocessor constants (main.c, lines 53-57) -/

/-- Macro BLOCK_SIZE, the number of compare values per buffer: 48. -/
abbrev BLOCK_SIZE : Nat := 48

/-- Macro GPDMA_CHANNEL0, DMA channel 0. -/
abbrev GPDMA_CHANNEL0 : Nat := 0

/-- Macro GPDMA_CHANNEL1, DMA channel 1. -/
abbrev GPDMA_CHANNEL1 : Nat := 1

/-- Macro TIMER_PERIOD: 65535. -/
abbrev TIMER_PERIOD : Nat := 65535

/-! ## Machine arithmetic -/

/-- Two's complement reduction of a mathematical integer to the range of a
32 bit `int`, `[-2^31, 2^31)`. -/
def wrap_int (x : Int) : Int := (x + 2147483648) % 4294967296 - 2147483648

/-- Division `a / b` on `int`: C division truncates towards zero. -/
def int_div (a b : Int) : Int := wrap_int (Int.tdiv a b)

/-- Multiplication `a * b` on `int`. -/
def int_mul (a b : Int) : Int := wrap_int (a * b)

/-- Subtraction `a - b` on `int`. -/
def int_sub (a b : Int) : Int := wrap_int (a - b)

/-- Conversion of an `int` to `uint32_t` (value modulo 2^32), as performed by
the assignments into `duty_cycles`. -/
def to_uint32 (x : Int) : Nat := (x % 4294967296).toNat

/-- The replacement text `TIMER_PERIOD/BLOCK_SIZE` of the macro COMPARE_BLOCK
evaluated on its own. The macro is not parenthesised; at both places where
`main` uses it the text is followed by `* e`, and `a / b * e` groups as
`(a / b) * e`, which is how the loop body below is written. -/
def COMPARE_BLOCK : Int := int_div TIMER_PERIOD BLOCK_SIZE

/-! ## Constants supplied by headers that are not part of this unit -/

/-- Values taken from `cybsp.h`, `cy_utils.h`, `xmc_dma.h`, `xmc_ccu4.h` and
from the linker: they are used by `main.c` but defined elsewhere. -/
structure Platform where
  /-- the success code of `cy_rslt_t` -/
  CY_RSLT_SUCCESS : Nat
  /-- the bit mask `CCU4_GCSS_S0SE_Msk` -/
  CCU4_GCSS_S0SE_Msk : Nat
  /-- the address `&PWM_0_HW->CRS` -/
  PWM_0_HW_CRS : Nat
  /-- the address `&CCU40->GCSS` -/
  CCU40_GCSS : Nat
  /-- the address `&duty_cycles[0][0]` chosen by the linker -/
  duty_cycles_addr : Nat
  /-- the address `&shadow_transfer_enable` chosen by the linker -/
  shadow_transfer_enable_addr : Nat

/-! ## Global variables (main.c, lines 63-64) -/

/-- The two mutable globals: `uint32_t duty_cycles[2][BLOCK_SIZE]` and
`uint32_t shadow_transfer_enable`. -/
structure Mem where
  duty_cycles : Fin 2 → Fin BLOCK_SIZE → Nat
  shadow_transfer_enable : Nat

/-- Peripheral instances named in `main.c`. -/
inductive Peripheral
  | XMC_DMA0
  | PWM_0_HW
  deriving DecidableEq

/-- A pointer to one of the two channel configuration objects. -/
inductive ConfigRef
  | dma_ch0_config
  | dma_ch1_config
  deriving DecidableEq

/-- Observable steps of `main`: stores to the globals and calls into the
hardware abstraction layer. -/
inductive Event
  | cybsp_init
  | store_duty_cycles (row : Nat) (i : Nat) (v : Nat)
  | store_shadow_transfer_enable (v : Nat)
  | XMC_DMA_Init (dma : Peripheral)
  | XMC_DMA_CH_Init (dma : Peripheral) (channel : Nat) (config : ConfigRef)
  | XMC_DMA_CH_Enable (dma : Peripheral) (channel : Nat)
  | XMC_CCU4_SLICE_StartTimer (slice : Peripheral)
  deriving DecidableEq

/-- Memory together with the events issued so far (oldest first). -/
structure State where
  mem : Mem
  trace : List Event

/-- Record a call of the hardware abstraction layer. -/
def emit (e : Event) (s : State) : State :=
  { s with trace := s.trace ++ [e] }

/-- The assignment `duty_cycles[row][i] = v;`. -/
def store_duty_cycles (row : Fin 2) (i : Fin BLOCK_SIZE) (v : Nat) (s : State) : State :=
  { mem := { s.mem with
      duty_cycles := fun r j => if r = row ∧ j = i then v else s.mem.duty_cycles r j },
    trace := s.trace ++ [Event.store_duty_cycles row.val i.val v] }

/-- The assignment `shadow_transfer_enable = v;`. -/
def store_shadow_transfer_enable (v : Nat) (s : State) : State :=
  { mem := { s.mem with shadow_transfer_enable := v },
    trace := s.trace ++ [Event.store_shadow_transfer_enable v] }

/-! ## The buffer-fill loop (main.c, lines 192-196) -/

/-- The value of `COMPARE_BLOCK * i` after macro expansion,
`TIMER_PERIOD/BLOCK_SIZE * i`. -/
def ascending_expr (i : Int) : Int :=
  int_mul (int_div TIMER_PERIOD BLOCK_SIZE) i

/-- The value of `(COMPARE_BLOCK * (BLOCK_SIZE - 1)) - (COMPARE_BLOCK * i)`
after macro expansion. -/
def descending_expr (i : Int) : Int :=
  int_sub (int_mul (int_div TIMER_PERIOD BLOCK_SIZE) (int_sub BLOCK_SIZE 1))
    (int_mul (int_div TIMER_PERIOD BLOCK_SIZE) i)

/-- One execution of the loop body at index `i`. -/
def loop_body (i : Fin BLOCK_SIZE) (s : State) : State :=
  let s1 := store_duty_cycles 0 i (to_uint32 (ascending_expr i.val)) s
  store_duty_cycles 1 i (to_uint32 (descending_expr i.val)) s1

/-- The loop `for (int i = ...; i < BLOCK_SIZE; i++) { body }` entered with
the counter at `i`. The counter only takes the values `0 .. BLOCK_SIZE`, so it
is kept as a natural number. -/
def fill_loop (i : Nat) (s : State) : State :=
  if h : i < BLOCK_SIZE then fill_loop (i + 1) (loop_body ⟨i, h⟩ s) else s
termination_by BLOCK_SIZE - i

/-- The whole loop, `for (int i = 0; i < BLOCK_SIZE; i++)`. -/
def fill (s : State) : State := fill_loop 0 s

/-! ## Statically initialised DMA objects (main.c, lines 80-166)

The enumeration types come from `xmc_dma.h`; only the enumerators that
`main.c` names are listed. -/

inductive XMC_DMA_CH_TRANSFER_WIDTH
  | XMC_DMA_CH_TRANSFER_WIDTH_32
  deriving DecidableEq

inductive XMC_DMA_CH_ADDRESS_COUNT_MODE
  | XMC_DMA_CH_ADDRESS_COUNT_MODE_INCREMENT
  | XMC_DMA_CH_ADDRESS_COUNT_MODE_NO_CHANGE
  deriving DecidableEq

inductive XMC_DMA_CH_BURST_LENGTH
  | XMC_DMA_CH_BURST_LENGTH_1
  deriving DecidableEq

inductive XMC_DMA_CH_TRANSFER_FLOW
  | XMC_DMA_CH_TRANSFER_FLOW_M2P_DMA
  deriving DecidableEq

inductive XMC_DMA_CH_TRANSFER_TYPE
  | XMC_DMA_CH_TRANSFER_TYPE_MULTI_BLOCK_SRCADR_LINKED_DSTADR_LINKED
  | XMC_DMA_CH_TRANSFER_TYPE_MULTI_BLOCK_SRCADR_RELOAD_DSTADR_RELOAD
  deriving DecidableEq

inductive XMC_DMA_CH_SRC_HANDSHAKING
  | XMC_DMA_CH_SRC_HANDSHAKING_SOFTWARE
  deriving DecidableEq

inductive XMC_DMA_CH_DST_HANDSHAKING
  | XMC_DMA_CH_DST_HANDSHAKING_HARDWARE
  deriving DecidableEq

inductive XMC_DMA_PERIPHERAL_REQUEST
  | DMA0_PERIPHERAL_REQUEST_CCU40_SR0_0
  deriving DecidableEq

inductive XMC_DMA_CH_PRIORITY
  | XMC_DMA_CH_PRIORITY_0
  deriving DecidableEq

/-- The pointer value cast `(uint32_t)p` of an address. -/
def ptr_to_uint32 (a : Nat) : Nat := a % 4294967296

/-- The address `&duty_cycles[row][col]`: the array `uint32_t [2][BLOCK_SIZE]`
is laid out row after row, four bytes per element. -/
def addr_duty_cycles (P : Platform) (row col : Nat) : Nat :=
  P.duty_cycles_addr + 4 * (row * BLOCK_SIZE + col)

/-- The fields of `XMC_DMA_LLI_t` that the initialiser of `dma_ll` sets. The
pointer `llp` is the index of the element of `dma_ll` it points to, `none`
being the null pointer. -/
structure XMC_DMA_LLI_t where
  block_size : Nat
  src_addr : Nat
  dst_addr : Nat
  llp : Option Nat
  src_transfer_width : XMC_DMA_CH_TRANSFER_WIDTH
  dst_transfer_width : XMC_DMA_CH_TRANSFER_WIDTH
  src_address_count_mode : XMC_DMA_CH_ADDRESS_COUNT_MODE
  dst_address_count_mode : XMC_DMA_CH_ADDRESS_COUNT_MODE
  src_burst_length : XMC_DMA_CH_BURST_LENGTH
  dst_burst_length : XMC_DMA_CH_BURST_LENGTH
  transfer_flow : XMC_DMA_CH_TRANSFER_FLOW
  enable_src_linked_list : Bool
  enable_dst_linked_list : Bool
  deriving DecidableEq

open XMC_DMA_CH_TRANSFER_WIDTH XMC_DMA_CH_ADDRESS_COUNT_MODE XMC_DMA_CH_BURST_LENGTH
  XMC_DMA_CH_TRANSFER_FLOW XMC_DMA_CH_TRANSFER_TYPE XMC_DMA_CH_SRC_HANDSHAKING
  XMC_DMA_CH_DST_HANDSHAKING XMC_DMA_PERIPHERAL_REQUEST XMC_DMA_CH_PRIORITY

/-- The array `XMC_DMA_LLI_t dma_ll[2]` (main.c, lines 80-112). -/
def dma_ll (P : Platform) : List XMC_DMA_LLI_t :=
  [ { block_size := BLOCK_SIZE,
      src_addr := ptr_to_uint32 (addr_duty_cycles P 0 0),
      dst_addr := ptr_to_uint32 P.PWM_0_HW_CRS,
      llp := some 1,
      src_transfer_width := XMC_DMA_CH_TRANSFER_WIDTH_32,
      dst_transfer_width := XMC_DMA_CH_TRANSFER_WIDTH_32,
      src_address_count_mode := XMC_DMA_CH_ADDRESS_COUNT_MODE_INCREMENT,
      dst_address_count_mode := XMC_DMA_CH_ADDRESS_COUNT_MODE_NO_CHANGE,
      src_burst_length := XMC_DMA_CH_BURST_LENGTH_1,
      dst_burst_length := XMC_DMA_CH_BURST_LENGTH_1,
      transfer_flow := XMC_DMA_CH_TRANSFER_FLOW_M2P_DMA,
      enable_src_linked_list := true,
      enable_dst_linked_list := true },
    { block_size := BLOCK_SIZE,
      src_addr := ptr_to_uint32 (addr_duty_cycles P 1 0),
      dst_addr := ptr_to_uint32 P.PWM_0_HW_CRS,
      llp := some 0,
      src_transfer_width := XMC_DMA_CH_TRANSFER_WIDTH_32,
      dst_transfer_width := XMC_DMA_CH_TRANSFER_WIDTH_32,
      src_address_count_mode := XMC_DMA_CH_ADDRESS_COUNT_MODE_INCREMENT,
      dst_address_count_mode := XMC_DMA_CH_ADDRESS_COUNT_MODE_NO_CHANGE,
      src_burst_length := XMC_DMA_CH_BURST_LENGTH_1,
      dst_burst_length := XMC_DMA_CH_BURST_LENGTH_1,
      transfer_flow := XMC_DMA_CH_TRANSFER_FLOW_M2P_DMA,
      enable_src_linked_list := true,
      enable_dst_linked_list := true } ]

/-- The fields of `XMC_DMA_CH_CONFIG_t` that the initialisers of
`dma_ch0_config` and `dma_ch1_config` mention; a field that an initialiser
leaves out is `none`. -/
structure XMC_DMA_CH_CONFIG_t where
  block_size : Nat
  linked_list_pointer : Option Nat
  src_addr : Option Nat
  dst_addr : Option Nat
  src_transfer_width : Option XMC_DMA_CH_TRANSFER_WIDTH
  dst_transfer_width : Option XMC_DMA_CH_TRANSFER_WIDTH
  src_address_count_mode : Option XMC_DMA_CH_ADDRESS_COUNT_MODE
  dst_address_count_mode : Option XMC_DMA_CH_ADDRESS_COUNT_MODE
  src_burst_length : Option XMC_DMA_CH_BURST_LENGTH
  dst_burst_length : Option XMC_DMA_CH_BURST_LENGTH
  transfer_flow : XMC_DMA_CH_TRANSFER_FLOW
  transfer_type : XMC_DMA_CH_TRANSFER_TYPE
  src_handshaking : XMC_DMA_CH_SRC_HANDSHAKING
  dst_handshaking : XMC_DMA_CH_DST_HANDSHAKING
  dst_peripheral_request : XMC_DMA_PERIPHERAL_REQUEST
  priority : XMC_DMA_CH_PRIORITY
  deriving DecidableEq

/-- The object `dma_ch0_config` (main.c, lines 125-135); its
`linked_list_pointer` is `&dma_ll[0]`. -/
def dma_ch0_config : XMC_DMA_CH_CONFIG_t :=
  { block_size := BLOCK_SIZE,
    linked_list_pointer := some 0,
    src_addr := none,
    dst_addr := none,
    src_transfer_width := none,
    dst_transfer_width := none,
    src_address_count_mode := none,
    dst_address_count_mode := none,
    src_burst_length := none,
    dst_burst_length := none,
    transfer_flow := XMC_DMA_CH_TRANSFER_FLOW_M2P_DMA,
    transfer_type := XMC_DMA_CH_TRANSFER_TYPE_MULTI_BLOCK_SRCADR_LINKED_DSTADR_LINKED,
    src_handshaking := XMC_DMA_CH_SRC_HANDSHAKING_SOFTWARE,
    dst_handshaking := XMC_DMA_CH_DST_HANDSHAKING_HARDWARE,
    dst_peripheral_request := DMA0_PERIPHERAL_REQUEST_CCU40_SR0_0,
    priority := XMC_DMA_CH_PRIORITY_0 }

/-- The object `dma_ch1_config` (main.c, lines 149-166). -/
def dma_ch1_config (P : Platform) : XMC_DMA_CH_CONFIG_t :=
  { block_size := BLOCK_SIZE,
    linked_list_pointer := none,
    src_addr := some (ptr_to_uint32 P.shadow_transfer_enable_addr),
    dst_addr := some (ptr_to_uint32 P.CCU40_GCSS),
    src_transfer_width := some XMC_DMA_CH_TRANSFER_WIDTH_32,
    dst_transfer_width := some XMC_DMA_CH_TRANSFER_WIDTH_32,
    src_address_count_mode := some XMC_DMA_CH_ADDRESS_COUNT_MODE_NO_CHANGE,
    dst_address_count_mode := some XMC_DMA_CH_ADDRESS_COUNT_MODE_NO_CHANGE,
    src_burst_length := some XMC_DMA_CH_BURST_LENGTH_1,
    dst_burst_length := some XMC_DMA_CH_BURST_LENGTH_1,
    transfer_flow := XMC_DMA_CH_TRANSFER_FLOW_M2P_DMA,
    transfer_type := XMC_DMA_CH_TRANSFER_TYPE_MULTI_BLOCK_SRCADR_RELOAD_DSTADR_RELOAD,
    src_handshaking := XMC_DMA_CH_SRC_HANDSHAKING_SOFTWARE,
    dst_handshaking := XMC_DMA_CH_DST_HANDSHAKING_HARDWARE,
    dst_peripheral_request := DMA0_PERIPHERAL_REQUEST_CCU40_SR0_0,
    priority := XMC_DMA_CH_PRIORITY_0 }

/-- The node reached from node `cur` of `dma_ll` by following its `llp`
pointer once; `none` when `cur` is not a node or its pointer is null. -/
def llp_next (P : Platform) (cur : Nat) : Option Nat :=
  match (dma_ll P)[cur]? with
  | some node => node.llp
  | none => none

/-- The node reached from `cur` after following `llp` exactly `k` times. -/
def llp_hops (P : Platform) : Nat → Nat → Option Nat
  | 0, cur => some cur
  | k + 1, cur =>
    match llp_next P cur with
    | some nxt => llp_hops P k nxt
    | none => none

/-- The size in bytes of one data item of the given transfer width. -/
def transfer_width_bytes : XMC_DMA_CH_TRANSFER_WIDTH → Nat
  | XMC_DMA_CH_TRANSFER_WIDTH_32 => 4

/-- Modelled from the spec: the block read of the DMA engine, which is
hardware and not part of main.c. Section 4.3: "the channel transfers one
block (N words) from the current descriptor's source to the fixed
destination"; section 3: "source address increment mode (advance)". Item `j`
of a block is read at the source address advanced by `j` items when the
source count mode is INCREMENT, and at the source address itself when it is
NO_CHANGE. -/
def block_read_addr (d : XMC_DMA_LLI_t) (j : Nat) : Nat :=
  match d.src_address_count_mode with
  | XMC_DMA_CH_ADDRESS_COUNT_MODE_INCREMENT =>
    ptr_to_uint32 (d.src_addr + transfer_width_bytes d.src_transfer_width * j)
  | XMC_DMA_CH_ADDRESS_COUNT_MODE_NO_CHANGE => d.src_addr

/-- The addresses read by one block transfer of descriptor `d`, in order. -/
def block_read_addrs (d : XMC_DMA_LLI_t) : List Nat :=
  (List.range d.block_size).map (block_read_addr d)

/-! ## The function main (main.c, lines 182-221) -/

/-- How a run of `main` ends: stopped inside `CY_ASSERT`, or spinning in the
final `while(1U);`. `main` never returns. -/
inductive Status
  | halted_in_assert
  | idle_loop
  deriving DecidableEq

/-- Modelled from the spec: the assertion `CY_ASSERT` of `cy_utils.h`, which
is not part of main.c. Section 7: "bring-up failure halts the process
immediately (assert/abort)" and "total system halt (infinite no-op loop)".
A false condition stops the program (`none`); a true one lets it continue. -/
def CY_ASSERT (cond : Bool) : Option Unit :=
  if cond then some () else none

/-- The function `main`. `cybsp_init_result` is the value returned by the
external call `cybsp_init()`; `s` is the state in which `main` is entered. -/
def main (P : Platform) (cybsp_init_result : Nat) (s : State) : Status × State :=
  let s1 := emit Event.cybsp_init s
  let checked : Option Unit :=
    if cybsp_init_result ≠ P.CY_RSLT_SUCCESS then CY_ASSERT false else some ()
  match checked with
  | none => (Status.halted_in_assert, s1)
  | some _ =>
    let s2 := fill s1
    let s3 := store_shadow_transfer_enable (P.CCU4_GCSS_S0SE_Msk % 4294967296) s2
    let s4 := emit (Event.XMC_DMA_Init Peripheral.XMC_DMA0) s3
    let s5 := emit (Event.XMC_DMA_CH_Init Peripheral.XMC_DMA0 GPDMA_CHANNEL0
      ConfigRef.dma_ch0_config) s4
    let s6 := emit (Event.XMC_DMA_CH_Init Peripheral.XMC_DMA0 GPDMA_CHANNEL1
      ConfigRef.dma_ch1_config) s5
    let s7 := emit (Event.XMC_DMA_CH_Enable Peripheral.XMC_DMA0 GPDMA_CHANNEL0) s6
    let s8 := emit (Event.XMC_DMA_CH_Enable Peripheral.XMC_DMA0 GPDMA_CHANNEL1) s7
    let s9 := emit (Event.XMC_CCU4_SLICE_StartTimer Peripheral.PWM_0_HW) s8
    (Status.idle_loop, s9)

/-- The state at program start: globals without initialiser are zero, and
nothing has happened yet. -/
def initial_state : State :=
  { mem := { duty_cycles := fun _ _ => 0, shadow_transfer_enable := 0 }, trace := [] }

/-- A platform used for concrete evaluation: success code 0, commit mask 1,
and addresses in the peripheral and SRAM ranges of a 32 bit device. -/
def sample_platform : Platform :=
  { CY_RSLT_SUCCESS := 0,
    CCU4_GCSS_S0SE_Msk := 1,
    PWM_0_HW_CRS := 0x4000C13C,
    CCU40_GCSS := 0x4000C010,
    duty_cycles_addr := 0x20000000,
    shadow_transfer_enable_addr := 0x20000180 }

/-! ## Words of the specification -/

/-- The ramp step in the words of the specification, round(period / N). -/
def spec_step : Int := round ((TIMER_PERIOD : ℚ) / (BLOCK_SIZE : ℚ))

/-- The events of the buffer-fill loop written out: for each index in
ascending order, the store to the ascending buffer and then the store to the
descending buffer. -/
def fill_events : List Event :=
  (List.range BLOCK_SIZE).flatMap fun i =>
    [Event.store_duty_cycles 0 i (1365 * i), Event.store_duty_cycles 1 i (64155 - 1365 * i)]

/-- Keep only the calls of the hardware abstraction layer. -/
def is_call : Event → Bool
  | Event.store_duty_cycles _ _ _ => false
  | Event.store_shadow_transfer_enable _ => false
  | _ => true

/-! ## Summaries of the loop used in the proofs -/

/-- The value the loop body stores into `duty_cycles[r][j]`. -/
def ramp (r : Fin 2) (j : Fin BLOCK_SIZE) : Nat :=
  if r = 0 then to_uint32 (ascending_expr j.val) else to_uint32 (descending_expr j.val)

/-- The events of the iterations `i, i + 1, ..., i + n - 1` of the loop. -/
def events_from : Nat → Nat → List Event
  | _, 0 => []
  | i, n + 1 =>
    Event.store_duty_cycles 0 i (to_uint32 (ascending_expr i)) ::
      Event.store_duty_cycles 1 i (to_uint32 (descending_expr i)) :: events_from (i + 1) n

/-! ## Arithmetic of the loop body -/

theorem int_div_period : int_div TIMER_PERIOD BLOCK_SIZE = 1365 := by decide

theorem tdiv_period : Int.tdiv (TIMER_PERIOD : Int) (BLOCK_SIZE : Int) = 1365 := by decide

theorem int_sub_block_one : int_sub BLOCK_SIZE 1 = 47 := by decide

theorem spec_step_eq : spec_step = 1365 := by
  unfold spec_step
  rw [round_eq, Int.floor_eq_iff]
  constructor <;> norm_num

theorem ascending_expr_eq (i : Nat) (h : i < BLOCK_SIZE) :
    ascending_expr i = 1365 * (i : Int) := by
  have h48 : i < 48 := h
  unfold ascending_expr
  rw [int_div_period]
  unfold int_mul wrap_int
  omega

theorem descending_expr_eq (i : Nat) (h : i < BLOCK_SIZE) :
    descending_expr i = 64155 - 1365 * (i : Int) := by
  have h48 : i < 48 := h
  unfold descending_expr
  rw [int_div_period, int_sub_block_one]
  unfold int_sub int_mul wrap_int
  omega

theorem to_uint32_ascending (i : Nat) (h : i < BLOCK_SIZE) :
    to_uint32 (ascending_expr i) = 1365 * i := by
  have h48 : i < 48 := h
  rw [ascending_expr_eq i h]
  unfold to_uint32
  omega

theorem to_uint32_descending (i : Nat) (h : i < BLOCK_SIZE) :
    to_uint32 (descending_expr i) = 64155 - 1365 * i := by
  have h48 : i < 48 := h
  rw [descending_expr_eq i h]
  unfold to_uint32
  omega

/-! ## The loop as a whole -/

theorem fill_loop_exit (i : Nat) (s : State) (h : ¬ i < BLOCK_SIZE) : fill_loop i s = s := by
  rw [fill_loop, dif_neg h]

theorem fill_loop_step (i : Nat) (s : State) (h : i < BLOCK_SIZE) :
    fill_loop i s = fill_loop (i + 1) (loop_body ⟨i, h⟩ s) := by
  rw [fill_loop, dif_pos h]

theorem loop_body_duty (i : Fin BLOCK_SIZE) (s : State) (r : Fin 2) (j : Fin BLOCK_SIZE) :
    (loop_body i s).mem.duty_cycles r j = if j = i then ramp r j else s.mem.duty_cycles r j := by
  unfold loop_body store_duty_cycles ramp
  by_cases hj : j = i
  · subst hj
    fin_cases r <;> simp
  · simp [hj]

theorem loop_body_shadow (i : Fin BLOCK_SIZE) (s : State) :
    (loop_body i s).mem.shadow_transfer_enable = s.mem.shadow_transfer_enable := rfl

theorem loop_body_trace (i : Fin BLOCK_SIZE) (s : State) :
    (loop_body i s).trace = s.trace ++
      [Event.store_duty_cycles 0 i.val (to_uint32 (ascending_expr i.val)),
       Event.store_duty_cycles 1 i.val (to_uint32 (descending_expr i.val))] := by
  simp [loop_body, store_duty_cycles]

theorem fill_loop_duty (n : Nat) : ∀ (i : Nat) (s : State), i + n = BLOCK_SIZE →
    ∀ (r : Fin 2) (j : Fin BLOCK_SIZE),
      (fill_loop i s).mem.duty_cycles r j =
        if i ≤ j.val then ramp r j else s.mem.duty_cycles r j := by
  induction n with
  | zero =>
    intro i s hi r j
    have hj := j.isLt
    rw [fill_loop_exit i s (by omega), if_neg (by omega)]
  | succ n ih =>
    intro i s hi r j
    have hlt : i < BLOCK_SIZE := by omega
    rw [fill_loop_step i s hlt, ih (i + 1) _ (by omega) r j, loop_body_duty]
    by_cases h1 : i + 1 ≤ j.val
    · rw [if_pos h1, if_pos (by omega)]
    · rw [if_neg h1]
      by_cases h2 : j = ⟨i, hlt⟩
      · rw [if_pos h2, if_pos (by rw [h2])]
      · have h3 : j.val ≠ i := fun h => h2 (Fin.ext h)
        rw [if_neg h2, if_neg (by omega)]

theorem fill_loop_shadow (n : Nat) : ∀ (i : Nat) (s : State), i + n = BLOCK_SIZE →
    (fill_loop i s).mem.shadow_transfer_enable = s.mem.shadow_transfer_enable := by
  induction n with
  | zero =>
    intro i s hi
    rw [fill_loop_exit i s (by omega)]
  | succ n ih =>
    intro i s hi
    have hlt : i < BLOCK_SIZE := by omega
    rw [fill_loop_step i s hlt, ih (i + 1) _ (by omega), loop_body_shadow]

theorem fill_loop_trace (n : Nat) : ∀ (i : Nat) (s : State), i + n = BLOCK_SIZE →
    (fill_loop i s).trace = s.trace ++ events_from i n := by
  induction n with
  | zero =>
    intro i s hi
    rw [fill_loop_exit i s (by omega)]
    simp [events_from]
  | succ n ih =>
    intro i s hi
    have hlt : i < BLOCK_SIZE := by omega
    rw [fill_loop_step i s hlt, ih (i + 1) _ (by omega), loop_body_trace]
    simp [events_from]

theorem events_from_zero : events_from 0 BLOCK_SIZE = fill_events := by decide

/-- After the loop every cell holds the value of the ramp. -/
theorem fill_duty (s : State) (r : Fin 2) (j : Fin BLOCK_SIZE) :
    (fill s).mem.duty_cycles r j = ramp r j := by
  unfold fill
  rw [fill_loop_duty BLOCK_SIZE 0 s (by simp) r j, if_pos (Nat.zero_le _)]

theorem fill_shadow (s : State) :
    (fill s).mem.shadow_transfer_enable = s.mem.shadow_transfer_enable :=
  fill_loop_shadow BLOCK_SIZE 0 s (by simp)

theorem fill_trace (s : State) : (fill s).trace = s.trace ++ fill_events := by
  unfold fill
  rw [fill_loop_trace BLOCK_SIZE 0 s (by simp), events_from_zero]

theorem fill_ascending (s : State) (i : Nat) (h : i < BLOCK_SIZE) :
    (fill s).mem.duty_cycles 0 ⟨i, h⟩ = 1365 * i := by
  rw [fill_duty]
  simp only [ramp, if_true]
  exact to_uint32_ascending i h

theorem fill_descending (s : State) (i : Nat) (h : i < BLOCK_SIZE) :
    (fill s).mem.duty_cycles 1 ⟨i, h⟩ = 64155 - 1365 * i := by
  rw [fill_duty]
  have : ¬ ((1 : Fin 2) = 0) := by decide
  simp only [ramp, if_neg this]
  exact to_uint32_descending i h

/-! ## The function main -/

theorem fill_events_no_call : fill_events.filter is_call = [] := by decide

theorem main_success (P : Platform) (s : State) :
    main P P.CY_RSLT_SUCCESS s =
      (Status.idle_loop,
        emit (Event.XMC_CCU4_SLICE_StartTimer Peripheral.PWM_0_HW)
          (emit (Event.XMC_DMA_CH_Enable Peripheral.XMC_DMA0 GPDMA_CHANNEL1)
            (emit (Event.XMC_DMA_CH_Enable Peripheral.XMC_DMA0 GPDMA_CHANNEL0)
              (emit (Event.XMC_DMA_CH_Init Peripheral.XMC_DMA0 GPDMA_CHANNEL1
                  ConfigRef.dma_ch1_config)
                (emit (Event.XMC_DMA_CH_Init Peripheral.XMC_DMA0 GPDMA_CHANNEL0
                    ConfigRef.dma_ch0_config)
                  (emit (Event.XMC_DMA_Init Peripheral.XMC_DMA0)
                    (store_shadow_transfer_enable (P.CCU4_GCSS_S0SE_Msk % 4294967296)
                      (fill (emit Event.cybsp_init s))))))))) := by
  simp [main]

theorem main_failure (P : Platform) (r : Nat) (s : State) (h : r ≠ P.CY_RSLT_SUCCESS) :
    main P r s = (Status.halted_in_assert, emit Event.cybsp_init s) := by
  simp [main, h, CY_ASSERT]

/-! ## The descriptor ring -/

theorem llp_next_zero (P : Platform) : llp_next P 0 = some 1 := rfl

theorem llp_next_one (P : Platform) : llp_next P 1 = some 0 := rfl

theorem llp_hops_both (P : Platform) (k : Nat) :
    llp_hops P k 0 = some (k % 2) ∧ llp_hops P k 1 = some ((k + 1) % 2) := by
  induction k with
  | zero => exact ⟨rfl, rfl⟩
  | succ k ih =>
    obtain ⟨h0, h1⟩ := ih
    constructor
    · rw [llp_hops, llp_next_zero]
      simp only [h1]
    · rw [llp_hops, llp_next_one]
      simp only [h0]
      congr 1
      omega

/-! ## Waveform precomputation: verified properties -/

/-- C1: after the buffer-fill loop, for every index `i` below `BLOCK_SIZE`
the ascending buffer holds round(period / N) * i and the descending buffer
holds round(period / N) * (N - 1) - round(period / N) * i; the step is the
truncating quotient `TIMER_PERIOD / BLOCK_SIZE` taken before the
multiplication, which differs from `(TIMER_PERIOD * i) / BLOCK_SIZE` at some
index. -/
theorem C1_ramp_contract (s : State) (i : Nat) (h : i < BLOCK_SIZE) :
    ((fill s).mem.duty_cycles 0 ⟨i, h⟩ : Int) = spec_step * (i : Int)
    ∧ ((fill s).mem.duty_cycles 1 ⟨i, h⟩ : Int)
        = spec_step * ((BLOCK_SIZE : Int) - 1) - spec_step * (i : Int)
    ∧ spec_step = Int.tdiv (TIMER_PERIOD : Int) (BLOCK_SIZE : Int)
    ∧ ((fill s).mem.duty_cycles 0 ⟨i, h⟩ : Int)
        = Int.tdiv (TIMER_PERIOD : Int) (BLOCK_SIZE : Int) * (i : Int)
    ∧ ((fill s).mem.duty_cycles 1 ⟨i, h⟩ : Int)
        = Int.tdiv (TIMER_PERIOD : Int) (BLOCK_SIZE : Int) * ((BLOCK_SIZE : Int) - 1)
          - Int.tdiv (TIMER_PERIOD : Int) (BLOCK_SIZE : Int) * (i : Int)
    ∧ ∃ (k : Nat) (hk : k < BLOCK_SIZE),
        (fill s).mem.duty_cycles 0 ⟨k, hk⟩ ≠ (TIMER_PERIOD * k) / BLOCK_SIZE := by
  have h48 : i < 48 := h
  rw [fill_ascending s i h, fill_descending s i h, spec_step_eq, tdiv_period]
  refine ⟨by push_cast; rfl, ?_, rfl, by push_cast; rfl, ?_, 10, by decide, ?_⟩
  · simp only [BLOCK_SIZE]
    omega
  · simp only [BLOCK_SIZE]
    omega
  · rw [fill_ascending s 10 (by decide)]
    decide

/-- Instance of C1 at index 10 of the buffers filled from the start state. -/
theorem C1_ramp_contract_witness :
    10 < BLOCK_SIZE
    ∧ ((fill initial_state).mem.duty_cycles 0 ⟨10, by decide⟩ : Int) = spec_step * ((10 : Nat) : Int)
    ∧ ((fill initial_state).mem.duty_cycles 1 ⟨10, by decide⟩ : Int)
        = spec_step * ((BLOCK_SIZE : Int) - 1) - spec_step * ((10 : Nat) : Int) :=
  ⟨by decide, (C1_ramp_contract initial_state 10 (by decide)).1,
    (C1_ramp_contract initial_state 10 (by decide)).2.1⟩

/-- C2: after the buffer-fill loop, for every index `i` below `BLOCK_SIZE`
the ascending and the descending value add up to round(period / N) * (N - 1),
the same constant for every index. -/
theorem C2_mirror_sum (s : State) (i : Nat) (h : i < BLOCK_SIZE) :
    (((fill s).mem.duty_cycles 0 ⟨i, h⟩ + (fill s).mem.duty_cycles 1 ⟨i, h⟩ : Nat) : Int)
        = spec_step * ((BLOCK_SIZE : Int) - 1)
    ∧ (fill s).mem.duty_cycles 0 ⟨i, h⟩ + (fill s).mem.duty_cycles 1 ⟨i, h⟩
        = (TIMER_PERIOD / BLOCK_SIZE) * (BLOCK_SIZE - 1) := by
  have h48 : i < 48 := h
  rw [fill_ascending s i h, fill_descending s i h, spec_step_eq]
  constructor
  · simp only [BLOCK_SIZE]
    omega
  · simp only [BLOCK_SIZE, TIMER_PERIOD]
    omega

/-- Instance of C2 at the last index of the buffers filled from the start state. -/
theorem C2_mirror_sum_witness :
    47 < BLOCK_SIZE
    ∧ (fill initial_state).mem.duty_cycles 0 ⟨47, by decide⟩
        + (fill initial_state).mem.duty_cycles 1 ⟨47, by decide⟩
        = (TIMER_PERIOD / BLOCK_SIZE) * (BLOCK_SIZE - 1) :=
  ⟨by decide, (C2_mirror_sum initial_state 47 (by decide)).2⟩

/-- C6: with period 65535 and N = 48 the compare step is 65535 / 48 = 1365 by
integer division, and after the fill `duty_cycles[0][10]` is 13650,
`duty_cycles[1][10]` is 1365 * 47 - 13650 = 50505 and `duty_cycles[0][47]` is
64155. -/
theorem C6_concrete_scenario (s : State) :
    TIMER_PERIOD = 65535 ∧ BLOCK_SIZE = 48
    ∧ COMPARE_BLOCK = 1365
    ∧ (fill s).mem.duty_cycles 0 ⟨10, by decide⟩ = 13650
    ∧ (fill s).mem.duty_cycles 1 ⟨10, by decide⟩ = 1365 * 47 - 13650
    ∧ (fill s).mem.duty_cycles 1 ⟨10, by decide⟩ = 50505
    ∧ (fill s).mem.duty_cycles 0 ⟨47, by decide⟩ = 64155 := by
  refine ⟨rfl, rfl, int_div_period, ?_, ?_, ?_, ?_⟩
  · exact fill_ascending s 10 (by decide)
  · exact fill_descending s 10 (by decide)
  · exact fill_descending s 10 (by decide)
  · exact fill_ascending s 47 (by decide)

/-- C7: after the fill the ascending buffer starts at 0 and ends at
round(period / N) * (N - 1); the descending buffer starts at
round(period / N) * (N - 1) and ends at 0. -/
theorem C7_ramp_end_points (s : State) :
    (fill s).mem.duty_cycles 0 ⟨0, by decide⟩ = 0
    ∧ ((fill s).mem.duty_cycles 0 ⟨BLOCK_SIZE - 1, by decide⟩ : Int)
        = spec_step * ((BLOCK_SIZE : Int) - 1)
    ∧ ((fill s).mem.duty_cycles 1 ⟨0, by decide⟩ : Int)
        = spec_step * ((BLOCK_SIZE : Int) - 1)
    ∧ (fill s).mem.duty_cycles 1 ⟨BLOCK_SIZE - 1, by decide⟩ = 0 := by
  rw [fill_ascending s 0 (by decide), fill_ascending s (BLOCK_SIZE - 1) (by decide),
    fill_descending s 0 (by decide), fill_descending s (BLOCK_SIZE - 1) (by decide),
    spec_step_eq]
  decide

/-- C8: the content of `duty_cycles` after the fill does not depend on the
content before it (every cell is overwritten, none is read), so running the
fill a second time leaves the memory as the first run left it. -/
theorem C8_fill_idempotent (s t : State) :
    (fill (fill s)).mem = (fill s).mem
    ∧ (fill s).mem.duty_cycles = (fill t).mem.duty_cycles
    ∧ (fill s).mem.shadow_transfer_enable = s.mem.shadow_transfer_enable := by
  have hd : ∀ a b : State, (fill a).mem.duty_cycles = (fill b).mem.duty_cycles := by
    intro a b
    funext r j
    rw [fill_duty, fill_duty]
  refine ⟨?_, hd s t, fill_shadow s⟩
  have h1 := hd (fill s) s
  have h2 := fill_shadow (fill s)
  cases hm : (fill (fill s)).mem with
  | mk d e =>
    cases hm2 : (fill s).mem with
    | mk d2 e2 =>
      rw [hm, hm2] at h1
      rw [hm] at h2
      rw [hm2] at h2
      simp only at h1 h2
      rw [h1, h2]

/-- C10: for every index `i` below `BLOCK_SIZE` each intermediate value of
the fill expressions lies between 0 and 64155, which is at most
`TIMER_PERIOD`; the 32 bit `int` operations therefore return the exact
mathematical results, the conversion to `uint32_t` changes nothing, and every
stored value fits the 16 bit timer period. -/
theorem C10_waveform_range (s : State) (i : Nat) (h : i < BLOCK_SIZE) :
    (0 ≤ Int.tdiv (TIMER_PERIOD : Int) (BLOCK_SIZE : Int) * (i : Int)
      ∧ Int.tdiv (TIMER_PERIOD : Int) (BLOCK_SIZE : Int) * (i : Int) ≤ 64155)
    ∧ Int.tdiv (TIMER_PERIOD : Int) (BLOCK_SIZE : Int) * ((BLOCK_SIZE : Int) - 1) = 64155
    ∧ (0 ≤ Int.tdiv (TIMER_PERIOD : Int) (BLOCK_SIZE : Int) * ((BLOCK_SIZE : Int) - 1)
          - Int.tdiv (TIMER_PERIOD : Int) (BLOCK_SIZE : Int) * (i : Int)
      ∧ Int.tdiv (TIMER_PERIOD : Int) (BLOCK_SIZE : Int) * ((BLOCK_SIZE : Int) - 1)
          - Int.tdiv (TIMER_PERIOD : Int) (BLOCK_SIZE : Int) * (i : Int) ≤ 64155)
    ∧ (64155 : Int) ≤ (TIMER_PERIOD : Int)
    ∧ int_div TIMER_PERIOD BLOCK_SIZE = Int.tdiv (TIMER_PERIOD : Int) (BLOCK_SIZE : Int)
    ∧ int_sub BLOCK_SIZE 1 = (BLOCK_SIZE : Int) - 1
    ∧ int_mul (int_div TIMER_PERIOD BLOCK_SIZE) (int_sub BLOCK_SIZE 1)
        = Int.tdiv (TIMER_PERIOD : Int) (BLOCK_SIZE : Int) * ((BLOCK_SIZE : Int) - 1)
    ∧ ascending_expr i = Int.tdiv (TIMER_PERIOD : Int) (BLOCK_SIZE : Int) * (i : Int)
    ∧ descending_expr i
        = Int.tdiv (TIMER_PERIOD : Int) (BLOCK_SIZE : Int) * ((BLOCK_SIZE : Int) - 1)
          - Int.tdiv (TIMER_PERIOD : Int) (BLOCK_SIZE : Int) * (i : Int)
    ∧ ((to_uint32 (ascending_expr i) : Nat) : Int) = ascending_expr i
    ∧ ((to_uint32 (descending_expr i) : Nat) : Int) = descending_expr i
    ∧ (fill s).mem.duty_cycles 0 ⟨i, h⟩ ≤ TIMER_PERIOD
    ∧ (fill s).mem.duty_cycles 1 ⟨i, h⟩ ≤ TIMER_PERIOD
    ∧ TIMER_PERIOD < 2 ^ 16 := by
  have h48 : i < 48 := h
  rw [fill_ascending s i h, fill_descending s i h, to_uint32_ascending i h,
    to_uint32_descending i h, ascending_expr_eq i h, descending_expr_eq i h, tdiv_period,
    int_div_period, int_sub_block_one]
  refine ⟨⟨?_, ?_⟩, ?_, ⟨?_, ?_⟩, ?_, ?_, ?_, ?_, ?_, ?_, ?_, ?_, ?_, ?_, ?_⟩
  all_goals first
    | rfl
    | decide
    | omega
    | (simp only [BLOCK_SIZE, TIMER_PERIOD]; omega)

/-- Instance of C10 at the last index, where the ascending value is largest. -/
theorem C10_waveform_range_witness :
    47 < BLOCK_SIZE
    ∧ (fill initial_state).mem.duty_cycles 0 ⟨47, by decide⟩ ≤ TIMER_PERIOD
    ∧ (fill initial_state).mem.duty_cycles 1 ⟨47, by decide⟩ ≤ TIMER_PERIOD :=
  ⟨by decide, (C10_waveform_range initial_state 47 (by decide)).2.2.2.2.2.2.2.2.2.2.2.1,
    (C10_waveform_range initial_state 47 (by decide)).2.2.2.2.2.2.2.2.2.2.2.2.1⟩

/-! ## Descriptor ring and bring-up sequence: verified properties -/

/-- C3: starting at node 0 of `dma_ll` and following `llp` exactly `k` times
ends at node 0 when `k` is even and at node 1 when `k` is odd, for every
`k`; the list has two nodes, and no node has a null `llp` or an `llp` that
points back to the node itself. -/
theorem C3_ring_traversal (P : Platform) (k : Nat) :
    llp_hops P k 0 = some (if k % 2 = 0 then 0 else 1)
    ∧ (dma_ll P).length = 2
    ∧ ∀ (n : Nat) (node : XMC_DMA_LLI_t), (dma_ll P)[n]? = some node →
        node.llp ≠ none ∧ node.llp ≠ some n
          ∧ ∃ m : Nat, node.llp = some m ∧ m < (dma_ll P).length := by
  refine ⟨?_, rfl, ?_⟩
  · rw [(llp_hops_both P k).1]
    congr 1
    split <;> omega
  · intro n node hn
    match n, hn with
    | 0, hn =>
      simp only [dma_ll, List.getElem?_cons_zero, Option.some.injEq] at hn
      subst hn
      exact ⟨by simp, by simp, 1, rfl, by simp [dma_ll]⟩
    | 1, hn =>
      simp only [dma_ll, List.getElem?_cons_succ, List.getElem?_cons_zero,
        Option.some.injEq] at hn
      subst hn
      exact ⟨by simp, by simp, 0, rfl, by simp [dma_ll]⟩
    | n + 2, hn => simp [dma_ll] at hn

/-- C4: when `cybsp_init` reports success, `main` issues exactly this
sequence: board init, the stores of the buffer fill, the store to
`shadow_transfer_enable`, DMA engine init, channel 0 init, channel 1 init,
channel 0 enable, channel 1 enable, timer start; the timer start is the last
event, and `main` then stays in its idle loop with the buffers filled. -/
theorem C4_bring_up_order (P : Platform) (s : State) :
    (main P P.CY_RSLT_SUCCESS s).1 = Status.idle_loop
    ∧ (main P P.CY_RSLT_SUCCESS s).2.trace
        = s.trace ++ [Event.cybsp_init] ++ fill_events
          ++ [Event.store_shadow_transfer_enable (P.CCU4_GCSS_S0SE_Msk % 4294967296),
              Event.XMC_DMA_Init Peripheral.XMC_DMA0,
              Event.XMC_DMA_CH_Init Peripheral.XMC_DMA0 0 ConfigRef.dma_ch0_config,
              Event.XMC_DMA_CH_Init Peripheral.XMC_DMA0 1 ConfigRef.dma_ch1_config,
              Event.XMC_DMA_CH_Enable Peripheral.XMC_DMA0 0,
              Event.XMC_DMA_CH_Enable Peripheral.XMC_DMA0 1,
              Event.XMC_CCU4_SLICE_StartTimer Peripheral.PWM_0_HW]
    ∧ (((main P P.CY_RSLT_SUCCESS s).2.trace).drop s.trace.length).filter is_call
        = [Event.cybsp_init,
           Event.XMC_DMA_Init Peripheral.XMC_DMA0,
           Event.XMC_DMA_CH_Init Peripheral.XMC_DMA0 0 ConfigRef.dma_ch0_config,
           Event.XMC_DMA_CH_Init Peripheral.XMC_DMA0 1 ConfigRef.dma_ch1_config,
           Event.XMC_DMA_CH_Enable Peripheral.XMC_DMA0 0,
           Event.XMC_DMA_CH_Enable Peripheral.XMC_DMA0 1,
           Event.XMC_CCU4_SLICE_StartTimer Peripheral.PWM_0_HW]
    ∧ (main P P.CY_RSLT_SUCCESS s).2.trace.getLast?
        = some (Event.XMC_CCU4_SLICE_StartTimer Peripheral.PWM_0_HW)
    ∧ (main P P.CY_RSLT_SUCCESS s).2.mem.duty_cycles = (fill s).mem.duty_cycles
    ∧ (main P P.CY_RSLT_SUCCESS s).2.mem.shadow_transfer_enable
        = P.CCU4_GCSS_S0SE_Msk % 4294967296 := by
  have htrace : (main P P.CY_RSLT_SUCCESS s).2.trace
        = s.trace ++ [Event.cybsp_init] ++ fill_events
          ++ [Event.store_shadow_transfer_enable (P.CCU4_GCSS_S0SE_Msk % 4294967296),
              Event.XMC_DMA_Init Peripheral.XMC_DMA0,
              Event.XMC_DMA_CH_Init Peripheral.XMC_DMA0 0 ConfigRef.dma_ch0_config,
              Event.XMC_DMA_CH_Init Peripheral.XMC_DMA0 1 ConfigRef.dma_ch1_config,
              Event.XMC_DMA_CH_Enable Peripheral.XMC_DMA0 0,
              Event.XMC_DMA_CH_Enable Peripheral.XMC_DMA0 1,
              Event.XMC_CCU4_SLICE_StartTimer Peripheral.PWM_0_HW] := by
    rw [main_success]
    simp only [emit, store_shadow_transfer_enable, fill_trace, List.append_assoc,
      List.cons_append, List.nil_append]
  refine ⟨by rw [main_success], htrace, ?_, ?_, ?_, ?_⟩
  · rw [htrace]
    simp only [List.append_assoc, List.drop_left, List.filter_append, fill_events_no_call]
    rfl
  · rw [List.getLast?_eq_some_iff]
    exact ⟨_, by rw [main_success]; rfl⟩
  · rw [main_success]
    simp only [emit, store_shadow_transfer_enable]
    funext r j
    rw [fill_duty, fill_duty]
  · rw [main_success]
    simp only [emit, store_shadow_transfer_enable]

/-- C5: for every result of `cybsp_init` other than `CY_RSLT_SUCCESS`, `main`
stops in the assertion: the only event is the call of `cybsp_init`, the
memory (both buffers and `shadow_transfer_enable`) is unchanged, and no DMA or
timer operation is issued. -/
theorem C5_bring_up_failure_fatal (P : Platform) (r : Nat) (s : State)
    (h : r ≠ P.CY_RSLT_SUCCESS) :
    (main P r s).1 = Status.halted_in_assert
    ∧ (main P r s).2.mem = s.mem
    ∧ (main P r s).2.trace = s.trace ++ [Event.cybsp_init]
    ∧ ∀ e ∈ ((main P r s).2.trace).drop s.trace.length, e = Event.cybsp_init := by
  rw [main_failure P r s h]
  refine ⟨rfl, rfl, rfl, ?_⟩
  intro e he
  simpa [emit] using he

/-- Instance of C5: result code 1 on a platform whose success code is 0. -/
theorem C5_bring_up_failure_fatal_witness :
    (1 : Nat) ≠ sample_platform.CY_RSLT_SUCCESS
    ∧ (main sample_platform 1 initial_state).1 = Status.halted_in_assert
    ∧ (main sample_platform 1 initial_state).2.mem = initial_state.mem
    ∧ (main sample_platform 1 initial_state).2.trace = initial_state.trace ++ [Event.cybsp_init] :=
  ⟨by decide, (C5_bring_up_failure_fatal sample_platform 1 initial_state (by decide)).1,
    (C5_bring_up_failure_fatal sample_platform 1 initial_state (by decide)).2.1,
    (C5_bring_up_failure_fatal sample_platform 1 initial_state (by decide)).2.2.1⟩

/-! ## Block length and buffer length -/

theorem block_read_of_row (P : Platform) (k : Nat) (node : XMC_DMA_LLI_t)
    (hfit : P.duty_cycles_addr + 4 * (2 * BLOCK_SIZE) ≤ 4294967296)
    (hn : (dma_ll P)[k]? = some node) :
    k < 2 ∧ node.block_size = BLOCK_SIZE ∧ node.src_addr = addr_duty_cycles P k 0
      ∧ ∀ j : Nat, j < BLOCK_SIZE → block_read_addr node j = addr_duty_cycles P k j := by
  simp only [BLOCK_SIZE] at hfit
  match k, hn with
  | 0, hn =>
    simp only [dma_ll, List.getElem?_cons_zero, Option.some.injEq] at hn
    subst hn
    refine ⟨by omega, rfl, ?_, ?_⟩
    · simp only [ptr_to_uint32, addr_duty_cycles, BLOCK_SIZE]
      omega
    · intro j hj
      simp only [block_read_addr, transfer_width_bytes, ptr_to_uint32, addr_duty_cycles,
        BLOCK_SIZE] at hj ⊢
      omega
  | 1, hn =>
    simp only [dma_ll, List.getElem?_cons_succ, List.getElem?_cons_zero,
      Option.some.injEq] at hn
    subst hn
    refine ⟨by omega, rfl, ?_, ?_⟩
    · simp only [ptr_to_uint32, addr_duty_cycles, BLOCK_SIZE]
      omega
    · intro j hj
      simp only [block_read_addr, transfer_width_bytes, ptr_to_uint32, addr_duty_cycles,
        BLOCK_SIZE] at hj ⊢
      omega
  | n + 2, hn => simp [dma_ll] at hn

/-- C9: both descriptors of `dma_ll` and `dma_ch0_config` have block size
`BLOCK_SIZE`, the length of a row of `duty_cycles`; descriptor `k` reads from
the start of row `k`, so (the array lying inside the 32 bit address space) the
addresses of one block read are those of `duty_cycles[k][0 .. N-1]` in order:
each is an element of row `k` only and lies inside the array. -/
theorem C9_block_matches_buffer (P : Platform)
    (hfit : P.duty_cycles_addr + 4 * (2 * BLOCK_SIZE) ≤ 4294967296) :
    (dma_ll P).map (fun d => d.block_size) = [BLOCK_SIZE, BLOCK_SIZE]
    ∧ dma_ch0_config.block_size = BLOCK_SIZE
    ∧ dma_ch0_config.linked_list_pointer = some 0
    ∧ (dma_ll P).map (fun d => d.src_addr)
        = [addr_duty_cycles P 0 0, addr_duty_cycles P 1 0]
    ∧ ∀ (k : Nat) (node : XMC_DMA_LLI_t), (dma_ll P)[k]? = some node →
        block_read_addrs node = (List.range BLOCK_SIZE).map (addr_duty_cycles P k)
        ∧ (∀ j : Nat, j < node.block_size → ∀ r c : Nat, r < 2 → c < BLOCK_SIZE →
            block_read_addr node j = addr_duty_cycles P r c → r = k ∧ c = j)
        ∧ (∀ j : Nat, j < node.block_size →
            P.duty_cycles_addr ≤ block_read_addr node j
            ∧ block_read_addr node j + 4 ≤ P.duty_cycles_addr + 4 * (2 * BLOCK_SIZE)) := by
  refine ⟨rfl, rfl, rfl, ?_, ?_⟩
  · have hfit48 : P.duty_cycles_addr + 4 * (2 * 48) ≤ 4294967296 := hfit
    have e0 : ptr_to_uint32 (addr_duty_cycles P 0 0) = addr_duty_cycles P 0 0 := by
      simp only [ptr_to_uint32, addr_duty_cycles, BLOCK_SIZE]
      omega
    have e1 : ptr_to_uint32 (addr_duty_cycles P 1 0) = addr_duty_cycles P 1 0 := by
      simp only [ptr_to_uint32, addr_duty_cycles, BLOCK_SIZE]
      omega
    simp only [dma_ll, List.map_cons, List.map_nil, e0, e1]
  · intro k node hn
    obtain ⟨hk, hbs, -, hrd⟩ := block_read_of_row P k node hfit hn
    refine ⟨?_, ?_, ?_⟩
    · unfold block_read_addrs
      rw [hbs]
      apply List.map_congr_left
      intro j hj
      exact hrd j (List.mem_range.mp hj)
    · intro j hj r c hr hc heq
      rw [hbs] at hj
      rw [hrd j hj] at heq
      simp only [addr_duty_cycles, BLOCK_SIZE] at heq hj hc
      omega
    · intro j hj
      rw [hbs] at hj
      rw [hrd j hj]
      simp only [addr_duty_cycles, BLOCK_SIZE] at hj ⊢
      omega

/-- Instance of C9 on the sample platform: the block read of descriptor 1. -/
theorem C9_block_matches_buffer_witness :
    sample_platform.duty_cycles_addr + 4 * (2 * BLOCK_SIZE) ≤ 4294967296
    ∧ (dma_ll sample_platform).map (fun d => d.block_size) = [BLOCK_SIZE, BLOCK_SIZE]
    ∧ (dma_ll sample_platform).map (fun d => d.src_addr)
        = [addr_duty_cycles sample_platform 0 0, addr_duty_cycles sample_platform 1 0] :=
  ⟨by decide, (C9_block_matches_buffer sample_platform (by decide)).1,
    (C9_block_matches_buffer sample_platform (by decide)).2.2.2.1⟩

end DmaPwm
